import Mathlib

/-
Verification of the bluedeem-chatbot conversation core against its design
specification.  The Python source is shallowly embedded: pure helper
functions become Lean functions on `String`/`List Char`, the database-backed
state (booking state rows, tickets, dedupe table, conversation history)
becomes explicit state records threaded through the step functions, and the
two genuinely external effects (the LLM structured-output call, the rapidfuzz
doctor-name matcher and the real-time clock) become explicit parameters.
Python `str` values are modelled as Lean `String` (a list of unicode scalar
values, matching the Python code-point view; Python `len` = `String.length`).
-/

/-- Python `str.strip()` whitespace set (the ASCII part; the strings handled
by this repository contain no other whitespace characters). -/
def isPyWs (c : Char) : Bool :=
  c == ' ' || c == '\t' || c == '\n' || c == '\r' || c == '\x0b' || c == '\x0c'

/-- Python `s.strip()` on a character list: drop whitespace from both ends. -/
def pyStripL (l : List Char) : List Char :=
  ((l.dropWhile isPyWs).reverse.dropWhile isPyWs).reverse

/-- Python `str.lower` as a per-character map (ASCII case mapping; every
Arabic character is a fixed point of `str.lower`, so this agrees with Python
on all strings this repository handles). -/
def toLowerC (c : Char) : Char :=
  if 65 ≤ c.toNat ∧ c.toNat ≤ 90 then Char.ofNat (c.toNat + 32) else c

/-- Python `s.strip()` on strings. -/
def stripStr (s : String) : String := ⟨pyStripL s.data⟩

/-- Python `s.lower()` on strings. -/
def lowerStr (s : String) : String := ⟨s.data.map toLowerC⟩

/-- `message.lower().strip()` as used by `Router.process`. -/
def lowerStripStr (s : String) : String := stripStr (lowerStr s)

/-- `message.strip().lower()` as used by `BookingManager.process_message`. -/
def stripLowerStr (s : String) : String := lowerStr (stripStr s)

/-- src/utils/arabic_normalizer.py: the `_AR_DIACRITICS` character class
`[ؗ-ًؚ-ْ]` (0x617 = 1559, 0x61A = 1562, 0x64B = 1611,
0x652 = 1618). -/
def isArDiacritic (c : Char) : Bool :=
  decide ((1559 ≤ c.toNat ∧ c.toNat ≤ 1562) ∨ (1611 ≤ c.toNat ∧ c.toNat ≤ 1618))

/-- The tatweel character `ـ` (`_TATWEEL`). -/
def tatweel : Char := 'ـ'

/-- The letter-variant folding of `normalize_ar`: the chained replaces
`أ/إ/آ → ا`, `ى → ي`, `ؤ → و`, `ئ → ي`.  Each replace targets a single
character and no replacement output is a later target, so the chain is the
per-character map below. -/
def foldVariantC (c : Char) : Char :=
  if c = 'أ' ∨ c = 'إ' ∨ c = 'آ' then 'ا'
  else if c = 'ى' ∨ c = 'ئ' then 'ي'
  else if c = 'ؤ' then 'و'
  else c

/-- `str.maketrans("٠١٢٣٤٥٦٧٨٩", "0123456789")`: Arabic-Indic digits
(0x660 = 1632 .. 0x669 = 1641) to ASCII digits. -/
def arDigitC (c : Char) : Char :=
  if 1632 ≤ c.toNat ∧ c.toNat ≤ 1641 then Char.ofNat (c.toNat - 1632 + 48) else c

/-- The body of `normalize_ar` on the character list, in source order:
strip, lower, remove tatweel, remove diacritics, fold letter variants,
translate digits. -/
def normalizeArL (l : List Char) : List Char :=
  (((((pyStripL l).map toLowerC).filter (fun c => !(c == tatweel))).filter
      (fun c => !(isArDiacritic c))).map foldVariantC).map arDigitC

/-- src/utils/arabic_normalizer.py `normalize_ar` (`if not s: return ""`,
then the pipeline). -/
def normalize_ar (s : String) : String :=
  if s = "" then "" else ⟨normalizeArL s.data⟩

/-- Python `\d` (any decimal digit) restricted to the scripts appearing in
this repository: ASCII digits and both Arabic-Indic digit blocks. -/
def isPyDigit (c : Char) : Bool :=
  c.isDigit || decide (1632 ≤ c.toNat ∧ c.toNat ≤ 1641)
    || decide (1776 ≤ c.toNat ∧ c.toNat ≤ 1785)

/-- The `re.sub` step of `normalize_phone`: strip, then delete every
character outside `[\d+]`. -/
def phoneCleaned (s : String) : List Char :=
  (pyStripL s.data).filter (fun c => isPyDigit c || c == '+')

/-- `needle` is an initial run of `hay` (Python `str.startswith`). -/
def leadsList : List Char → List Char → Bool
  | [], _ => true
  | _ :: _, [] => false
  | a :: ns, b :: hs => a == b && leadsList ns hs

/-- The country-code prefix stripping of `normalize_phone` (`+966`, `00966`,
`966`, checked in that order, then `0` is prepended when missing). -/
def phoneDropPrefix (l : List Char) : List Char :=
  if leadsList ['+', '9', '6', '6'] l then '0' :: l.drop 4
  else if leadsList ['0', '0', '9', '6', '6'] l then '0' :: l.drop 5
  else if leadsList ['9', '6', '6'] l then '0' :: l.drop 3
  else l

/-- The `5\d{8}` core of `SAUDI_PHONE_PATTERN`. -/
def saudiCore (l : List Char) : Bool :=
  match l with
  | '5' :: rest => rest.length == 8 && rest.all isPyDigit
  | _ => false

/-- Full match of `SAUDI_PHONE_PATTERN = ^(?:\+966|00966|966|0)?5\d{8}$`:
the optional prefix is one of the four alternatives or absent. -/
def saudiFullMatch (l : List Char) : Bool :=
  saudiCore l
  || (leadsList ['+', '9', '6', '6'] l && saudiCore (l.drop 4))
  || (leadsList ['0', '0', '9', '6', '6'] l && saudiCore (l.drop 5))
  || (leadsList ['9', '6', '6'] l && saudiCore (l.drop 3))
  || (leadsList ['0'] l && saudiCore (l.drop 1))

/-- src/utils/phone.py `normalize_phone`: clean, strip country code, ensure
a leading `0`, validate against the Saudi mobile pattern. -/
def normalize_phone (s : String) : Option String :=
  if s = "" then none
  else
    let cleaned := phoneDropPrefix (phoneCleaned s)
    let cleaned2 := if leadsList ['0'] cleaned then cleaned else '0' :: cleaned
    if saudiFullMatch cleaned2 then some ⟨cleaned2⟩ else none

/-- The float confidence literal `n/100` from the source, as a rational
(`conf 92` stands for the source literal `0.92`; every confidence in the
source is an exact hundredth). -/
def conf (n : Nat) : ℚ := mkRat n 100

/-- An entity `{type, value, confidence}` (models/schemas.py `Entity`);
the float confidence is modelled as a rational. -/
structure Entity where
  type : String
  value : String
  confidence : ℚ
deriving DecidableEq

/-- Approximation of the regex word-character class `\w` covering the
scripts this repository handles: ASCII alphanumerics, underscore, and the
Arabic block U+0600–U+06FF (which `\w` includes). -/
def isWordChar (c : Char) : Bool :=
  c.isAlphanum || c == '_' || decide (1536 ≤ c.toNat ∧ c.toNat ≤ 1791)

/-- `re.search` driver: try a position matcher at every start position from
the left; the matcher also receives the previous character so it can
evaluate a leading `\b`. -/
def searchWithPrev (f : Option Char → List Char → Option α) :
    Option Char → List Char → Option α
  | prev, [] => f prev []
  | prev, c :: rest =>
    match f prev (c :: rest) with
    | some r => some r
    | none => searchWithPrev f (some c) rest

/-- Match the `5\d{8}\b` core of `PHONE_RE` at the start of `l`, returning
the consumed characters. -/
def phoneCoreMatch : List Char → Option (List Char)
  | '5' :: rest =>
    let d8 := rest.take 8
    if d8.length = 8 ∧ d8.all isPyDigit then
      match rest.drop 8 with
      | [] => some ('5' :: d8)
      | c :: _ => if isWordChar c then none else some ('5' :: d8)
    else none
  | _ => none

/-- Match `PHONE_RE = (?:\+?966|0)?5\d{8}\b` at one position, trying the
prefix alternatives in regex order (`+966`, `966`, `0`, empty). -/
def phoneMatchAt (l : List Char) : Option (List Char) :=
  (match l with
   | '+' :: '9' :: '6' :: '6' :: rest =>
     (phoneCoreMatch rest).map (fun m => '+' :: '9' :: '6' :: '6' :: m)
   | _ => none) <|>
  (match l with
   | '9' :: '6' :: '6' :: rest =>
     (phoneCoreMatch rest).map (fun m => '9' :: '6' :: '6' :: m)
   | _ => none) <|>
  (match l with
   | '0' :: rest => (phoneCoreMatch rest).map (fun m => '0' :: m)
   | _ => none) <|>
  phoneCoreMatch l

/-- A `\b` boundary against the characters following a match. -/
def wordBoundaryAfter : List Char → Bool
  | [] => true
  | c :: _ => !(isWordChar c)

/-- Match the `[:.]([0-5]\d)\b` tail of `TIME_RE`; returns the minute
characters (group 2). -/
def timeTailMatch : List Char → Option (List Char)
  | s :: m1 :: m2 :: rest =>
    if (s == ':' || s == '.') ∧ ('0' ≤ m1 ∧ m1 ≤ '5') ∧ isPyDigit m2 = true ∧
        wordBoundaryAfter rest = true
    then some [m1, m2] else none
  | _ => none

/-- Match `TIME_RE = \b([01]?\d|2[0-3])[:.]([0-5]\d)\b` at one position
(hour alternatives in regex order); returns (hour digits, minute digits). -/
def timeMatchAt (prev : Option Char) (l : List Char) :
    Option (List Char × List Char) :=
  if match prev with | none => false | some p => isWordChar p then none
  else
    (match l with
     | h1 :: h2 :: rest =>
       if (h1 == '0' || h1 == '1') ∧ isPyDigit h2 = true then
         (timeTailMatch rest).map (fun m => ([h1, h2], m))
       else none
     | _ => none) <|>
    (match l with
     | h1 :: rest =>
       if isPyDigit h1 then (timeTailMatch rest).map (fun m => ([h1], m))
       else none
     | _ => none) <|>
    (match l with
     | '2' :: h2 :: rest =>
       if '0' ≤ h2 ∧ h2 ≤ '3' then
         (timeTailMatch rest).map (fun m => (['2', h2], m))
       else none
     | _ => none)

/-- The alternatives of `DATE_RE` (verbatim from the source, including the
hamza-bearing forms that can never occur in normalized text). -/
def DATE_WORDS : List (List Char) :=
  ["اليوم".data, "بكرا".data, "بعد بكرا".data, "السبت".data, "الأحد".data,
   "الاثنين".data, "الثلاثاء".data, "الأربعاء".data, "الخميس".data,
   "الجمعة".data]

/-- Match `DATE_RE` at one position: `\b`, one of the day words, `\b`. -/
def dateMatchAt (prev : Option Char) (l : List Char) : Option (List Char) :=
  if match prev with | none => false | some p => isWordChar p then none
  else
    DATE_WORDS.findSome? (fun w =>
      if leadsList w l ∧ wordBoundaryAfter (l.drop w.length) = true then some w
      else none)

/-- Numeric value of a decimal digit character (`int` on digit strings). -/
def digitVal (c : Char) : Nat :=
  if c.isDigit then c.toNat - 48
  else if 1632 ≤ c.toNat ∧ c.toNat ≤ 1641 then c.toNat - 1632
  else if 1776 ≤ c.toNat ∧ c.toNat ≤ 1785 then c.toNat - 1776
  else 0

def digitsToNat (l : List Char) : Nat :=
  l.foldl (fun acc c => acc * 10 + digitVal c) 0

/-- Python `f"{hour:02d}"`. -/
def pad2 (n : Nat) : String := if n < 10 then "0" ++ toString n else toString n

/-- src/utils/entity_extractor.py `quick_extract_entities`: first regex
match per category (phone, time, date) on the normalized message. -/
def quickExtractEntities (msg : String) : List Entity :=
  if msg = "" then []
  else
    let normalized := (normalize_ar msg).data
    let phoneEnt : List Entity :=
      match searchWithPrev (fun _ t => phoneMatchAt t) none normalized with
      | none => []
      | some m =>
        let v :=
          if leadsList ['9', '6', '6'] m then '0' :: m.drop 3
          else if leadsList ['+', '9', '6', '6'] m then '0' :: m.drop 4
          else if !(leadsList ['0'] m) then '0' :: m
          else m
        [⟨"phone", ⟨v⟩, conf 95⟩]
    let timeEnt : List Entity :=
      match searchWithPrev timeMatchAt none normalized with
      | none => []
      | some (hd, md) =>
        [⟨"time", pad2 (digitsToNat hd) ++ ":" ++ (⟨md⟩ : String), conf 90⟩]
    let dateEnt : List Entity :=
      match searchWithPrev dateMatchAt none normalized with
      | none => []
      | some w => [⟨"date", ⟨w⟩, conf 85⟩]
    phoneEnt ++ timeEnt ++ dateEnt

/-- src/utils/entity_extractor.py `merge_entities`: the LLM entities first,
then the regex entities whose type does not already occur. -/
def mergeEntities (llmEntities extracted : List Entity) : List Entity :=
  let llmTypes := llmEntities.map (fun e => e.type)
  llmEntities ++ extracted.filter (fun e => !(llmTypes.contains e.type))

/-- Python `needle in hay` on strings (contiguous substring test). -/
def containsSeq (needle : List Char) : List Char → Bool
  | [] => needle.isEmpty
  | c :: rest => leadsList needle (c :: rest) || containsSeq needle rest

def subStr (needle hay : String) : Bool := containsSeq needle.data hay.data

/-- `any(k in s for k in hints)`. -/
def containsAnyOf (hints : List String) (s : String) : Bool :=
  hints.any (fun k => subStr k s)

/-- Keyword tables of src/core/intent.py, verbatim. -/
def SIMPLE_GREETINGS : List String :=
  ["هلا", "اهلا", "أهلا", "اهلاً", "أهلاً", "مرحبا", "هاي", "هلاً"]

def GREETING_HINTS : List String :=
  ["السلام عليكم", "وعليكم السلام", "شلونك", "كيفك", "هلا", "اهلا", "مرحبا",
   "هاي", "السلام"]

def THANKS_HINTS : List String :=
  ["شكرا", "شكراً", "شكر", "مشكور", "مشكورة", "يعطيك", "الله يعطيك", "تسلم",
   "تسلمين", "تمام", "بيض الله وجهك"]

def GOODBYE_HINTS : List String :=
  ["مع السلامة", "باي", "وداع", "الله يوفقك", "يلا سلام", "نشوفك",
   "في امان الله"]

def HOURS_HINTS : List String :=
  ["متى تفتح", "متى تفتحون", "اوقات الدوام", "اوقات العمل", "متى الدوام",
   "ساعات العمل", "متى تفتح الفروع", "متى الفروع تفتح", "اوقات الفروع",
   "دوامكم"]

def BRANCH_HINTS : List String :=
  ["وين", "الموقع", "موقع", "عنوان", "فروع", "فرع", "مكانكم", "لوكيشن",
   "لوكيشنكم"]

def SERVICE_HINTS : List String :=
  ["خدمة", "خدمات", "سعر", "اسعار", "كم سعر", "تكلفة", "بكم", "كم تكلف",
   "مدة", "كم دقيقة"]

def BOOKING_WORDS : List String :=
  ["حجز", "احجز", "موعد", "ابي احجز", "أبي احجز", "ابغى احجز", "أبغى احجز",
   "ابي موعد", "أبي موعد", "ابغى موعد"]

def BOOKING_STRICT : List String :=
  ["ابي احجز", "أبي احجز", "ابغى احجز", "أبغى احجز", "ابي موعد", "أبي موعد",
   "ابغى موعد", "أبغى موعد"]

def GENERAL_HINTS : List String :=
  ["استفسار", "سؤال", "عندي سؤال", "عندي استفسار", "من انت", "مين انت",
   "ما اسمك", "اسمك", "كيف احجز", "شلون احجز", "طريقة الحجز"]

def WANT_VERBS : List String :=
  ["ابي", "أبي", "ابغى", "أبغى", "اريد", "أريد", "احتاج", "أحتاج", "دلني",
   "رشح", "اقترح"]

def SPECIALTY_KEYS : List String :=
  ["اسنان", "جلدية", "اطفال", "عظام", "نساء", "ولادة", "باطنية"]

def DOCTOR_LIST_HINTS : List String :=
  ["مين الاطباء", "مين أطباء", "قائمة الاطباء", "قائمة الأطباء",
   "اسماء الاطباء", "أسماء الأطباء", "مين الدكاتره", "مين الدكاترة"]

def BEST_DOCTOR_HINTS : List String :=
  ["مين احسن", "مين أفضل", "مين افضل", "افضل", "أحسن", "احسن"]

/-- `_clean_key`: strip, then delete every character outside
`[\w؀-ۿ]`. -/
def cleanKey (s : String) : String :=
  ⟨(pyStripL s.data).filter isWordChar⟩

/-- `message.strip(); normalize_ar(msg).lower().strip()` — the normalized
message the classifier scores against. -/
def classifierNorm (msg : String) : String := stripStr (lowerStr (normalize_ar msg))

/-- Python `str.split()` (split on whitespace runs, dropping empties). -/
def splitWsAux : List Char → List Char → List String
  | acc, [] => if acc.isEmpty then [] else [⟨acc.reverse⟩]
  | acc, c :: rest =>
    if isPyWs c then
      if acc.isEmpty then splitWsAux [] rest
      else (⟨acc.reverse⟩ : String) :: splitWsAux [] rest
    else splitWsAux (c :: acc) rest

def splitWs (s : String) : List String := splitWsAux [] s.data

/-- Python `" ".join`. -/
def joinSep (sep : String) : List String → String
  | [] => ""
  | [x] => x
  | x :: y :: rest => x ++ sep ++ joinSep sep (y :: rest)

/-- The per-intent scores of `IntentClassifier.classify` (lines 213–267),
as functions of the normalized/cleaned message. -/
def greetingScore (msgNorm msgClean : String) : Nat :=
  (if (SIMPLE_GREETINGS.map cleanKey).contains msgClean = true
      ∨ leadsList "هلا".data msgClean.data = true
      ∨ leadsList "اهلا".data msgClean.data = true
   then 12 else 0) +
  (if containsAnyOf GREETING_HINTS msgNorm = true then 7 else 0)

def thanksScore (msgNorm : String) : Nat :=
  if containsAnyOf THANKS_HINTS msgNorm = true then 10 else 0

def goodbyeScore (msgNorm : String) : Nat :=
  if containsAnyOf GOODBYE_HINTS msgNorm = true then 10 else 0

def bookingScore (msgNorm : String) : Nat :=
  if containsAnyOf BOOKING_WORDS msgNorm = true then
    9 + (if containsAnyOf BOOKING_STRICT msgNorm = true then 2 else 0)
  else 0

def hoursScore (msgNorm : String) : Nat :=
  if containsAnyOf HOURS_HINTS msgNorm = true then 9 else 0

def branchScore (msgNorm : String) : Nat :=
  if containsAnyOf BRANCH_HINTS msgNorm = true then 7 else 0

def serviceScore (msgNorm : String) : Nat :=
  if containsAnyOf SERVICE_HINTS msgNorm = true then 6 else 0

def doctorScore (msgNorm : String) : Nat :=
  (if containsAnyOf DOCTOR_LIST_HINTS msgNorm = true
      ∨ (subStr "مين" msgNorm = true ∧
          (subStr "اطباء" msgNorm = true ∨ subStr "دكاتره" msgNorm = true ∨
            subStr "دكاترة" msgNorm = true))
   then 9 else 0) +
  (if subStr "مين" msgNorm = true ∧ containsAnyOf BEST_DOCTOR_HINTS msgNorm = true ∧
      (containsAnyOf ["طبيب", "دكتور", "دكتورة", "دكاتره", "دكاترة"] msgNorm = true ∨
        containsAnyOf SPECIALTY_KEYS msgNorm = true)
   then 8 else 0) +
  (if containsAnyOf WANT_VERBS msgNorm = true ∧
      (containsAnyOf SPECIALTY_KEYS msgNorm = true ∨
        containsAnyOf ["طبيب", "دكتور", "دكتورة"] msgNorm = true)
   then 7 else 0)

def generalScore (msgNorm : String) : Nat :=
  if containsAnyOf GENERAL_HINTS msgNorm = true then 8 else 0

/-- models/schemas.py `IntentSchema`: the result record of the classifier. -/
structure IntentResult where
  intent : String
  entities : List Entity
  confidence : ℚ
  next_action : String
deriving DecidableEq

/-- The runtime environment of `IntentClassifier`: the doctor-name lists
loaded at startup from the data handler, and the rapidfuzz matcher
`process.extractOne(hint, names, score_cutoff=72)[0]` modelled as an
abstract function (its scoring lives outside this repository; it returns an
exact-equal candidate when one exists, and `none` below the cutoff). -/
structure ClassifierParams where
  doctorNames : List String
  doctorNamesNorm : List String
  fuzzyBest : String → List String → Option String

def HINT_TRIGGERS : List String := ["دكتور", "دكتوره", "دكتورة", "د", "د.", "مع", "عند"]

/-- The token scan of `_extract_name_hint`: first trigger token that is
followed by at least one token wins; its next up-to-three tokens form the
hint. -/
def hintScan (fallbackVal : String) : List String → String
  | [] => fallbackVal
  | t :: rest =>
    if HINT_TRIGGERS.contains t = true ∧ rest ≠ [] then joinSep " " (rest.take 3)
    else hintScan fallbackVal rest

/-- `_extract_name_hint`. -/
def extractNameHint (msgNorm : String) : String :=
  hintScan msgNorm (splitWs msgNorm)

/-- `_maybe_add_doctor_name`. -/
def maybeAddDoctorName (P : ClassifierParams) (msgNorm : String)
    (entities : List Entity) : List Entity :=
  if entities.any (fun e => e.type == "doctor_name") then entities
  else if !(containsAnyOf ["دكتور", "دكتورة", "عند", "مع"] msgNorm) then entities
  else if P.doctorNamesNorm.isEmpty then entities
  else
    match P.fuzzyBest (extractNameHint msgNorm) P.doctorNamesNorm with
    | none => entities
    | some matchNorm =>
      let idx := P.doctorNamesNorm.indexOf matchNorm
      let doctorName := P.doctorNames.getD idx ""
      entities ++ [⟨"doctor_name", doctorName, conf 90⟩]

def KEY_ENTITY_TYPES : List String := ["doctor_name", "service_name", "date", "time"]

/-- `any(e.get("type") in {"doctor_name","service_name","date","time"} ...)`. -/
def hasKeyEntity (entities : List Entity) : Bool :=
  entities.any (fun e => KEY_ENTITY_TYPES.contains e.type)

/-- The local `booking_action()` helper of `classify`. -/
def bookingActionOf (extracted : List Entity) : String :=
  if hasKeyEntity extracted then "start_booking" else "ask_clarification"

/-- The rule-based stage of `IntentClassifier.classify` (lines 201–344 of
src/core/intent.py, minus the memoising TTL cache, which only replays
previous results): `some r` when a rule short-circuit fires before the LLM
call, `none` when control falls through to the structured-output call.
Takes the already-stripped message. -/
def classifyRules (P : ClassifierParams) (msg : String) : Option IntentResult :=
  let msgNorm := classifierNorm msg
  let msgClean := cleanKey msgNorm
  let extracted := quickExtractEntities msg
  if greetingScore msgNorm msgClean ≥ 10 then
    some ⟨"greeting", extracted, conf 98, "use_llm"⟩
  else if thanksScore msgNorm ≥ 10 then some ⟨"thanks", extracted, conf 97, "use_llm"⟩
  else if goodbyeScore msgNorm ≥ 10 then some ⟨"goodbye", extracted, conf 97, "use_llm"⟩
  else if bookingScore msgNorm ≥ 9 then
    some ⟨"booking", maybeAddDoctorName P msgNorm extracted, conf 92,
      bookingActionOf extracted⟩
  else if hoursScore msgNorm ≥ 9 then some ⟨"hours", extracted, conf 92, "use_llm"⟩
  else if (splitWs msgNorm).length ≤ 2 then
    if doctorScore msgNorm ≥ 7 then some ⟨"doctor", extracted, conf 88, "use_llm"⟩
    else if branchScore msgNorm ≥ 6 then some ⟨"branch", extracted, conf 86, "use_llm"⟩
    else if serviceScore msgNorm ≥ 6 then some ⟨"service", extracted, conf 86, "use_llm"⟩
    else some ⟨"general", extracted, conf 75, "use_llm"⟩
  else if doctorScore msgNorm ≥ 8 then some ⟨"doctor", extracted, conf 90, "use_llm"⟩
  else if branchScore msgNorm ≥ 7 ∧ subStr "وين" msgNorm = true then
    some ⟨"branch", extracted, conf 88, "use_llm"⟩
  else if serviceScore msgNorm ≥ 7 then some ⟨"service", extracted, conf 86, "use_llm"⟩
  else if generalScore msgNorm ≥ 8 then some ⟨"general", extracted, conf 86, "use_llm"⟩
  else none

/-- A successfully parsed and schema-validated structured-output payload
from the LLM call. -/
structure LLMData where
  intent : String
  entities : List Entity
  confidence : ℚ
  next_action : String

/-- The post-processing of a successful LLM structured output (lines
371–386): merge LLM and regex entities, then the booking `next_action`
safety override. -/
def llmPostprocess (d : LLMData) (extracted : List Entity) : IntentResult :=
  let merged := mergeEntities d.entities extracted
  let na :=
    if d.intent = "booking" then
      if hasKeyEntity merged then "start_booking" else "ask_clarification"
    else d.next_action
  ⟨d.intent, merged, d.confidence, na⟩

/-- `_fallback_classify`: the reduced rule table used when the LLM call
fails. -/
def fallbackClassify (P : ClassifierParams) (message : String)
    (extracted : List Entity) : IntentResult :=
  let msgNorm := classifierNorm message
  let msgClean := cleanKey msgNorm
  if (SIMPLE_GREETINGS.map cleanKey).contains msgClean = true
      ∨ containsAnyOf GREETING_HINTS msgNorm = true then
    ⟨"greeting", extracted, conf 85, "use_llm"⟩
  else if containsAnyOf THANKS_HINTS msgNorm = true then
    ⟨"thanks", extracted, conf 85, "use_llm"⟩
  else if containsAnyOf GOODBYE_HINTS msgNorm = true then
    ⟨"goodbye", extracted, conf 85, "use_llm"⟩
  else if containsAnyOf BOOKING_WORDS msgNorm = true then
    let ex2 := maybeAddDoctorName P msgNorm extracted
    ⟨"booking", ex2, conf 80,
      if hasKeyEntity ex2 then "start_booking" else "ask_clarification"⟩
  else if containsAnyOf HOURS_HINTS msgNorm = true then
    ⟨"hours", extracted, conf 80, "use_llm"⟩
  else if containsAnyOf DOCTOR_LIST_HINTS msgNorm = true
      ∨ (subStr "مين" msgNorm = true ∧
          (subStr "اطباء" msgNorm = true ∨ subStr "دكاتره" msgNorm = true ∨
            subStr "دكاترة" msgNorm = true)) then
    ⟨"doctor", extracted, conf 80, "use_llm"⟩
  else if containsAnyOf BRANCH_HINTS msgNorm = true then
    ⟨"branch", extracted, conf 75, "use_llm"⟩
  else if containsAnyOf SERVICE_HINTS msgNorm = true then
    ⟨"service", extracted, conf 75, "use_llm"⟩
  else ⟨"unclear", extracted, conf 50, "ask_clarification"⟩

/-- `IntentClassifier.classify` for one uncached call, with the structured
LLM call abstracted as `llm` (`none` models call failure, empty content or
schema-invalid output, all of which raise and fall back). -/
def classify (P : ClassifierParams) (llm : Option LLMData)
    (message : String) : IntentResult :=
  let msg := stripStr message
  if msg = "" then ⟨"unclear", [], conf 50, "ask_clarification"⟩
  else
    match classifyRules P msg with
    | some r => r
    | none =>
      match llm with
      | some d => llmPostprocess d (quickExtractEntities msg)
      | none => fallbackClassify P msg (quickExtractEntities msg)

/-- A `ClassifierParams` with no doctor data loaded (the fallback of the
constructor when the data handler raises). -/
def emptyClassifierParams : ClassifierParams := ⟨[], [], fun _ _ => none⟩

/-- A `ClassifierParams` with one doctor loaded whose stored name equals the
extracted hint for the C4 counterexample message; the fuzzy matcher is
instantiated with exact-equality matching, which the rapidfuzz
`extractOne` call with cutoff 72 satisfies on exact hits (score 100). -/
def c4Params : ClassifierParams :=
  ⟨["دكتور احمد السالم"], ["دكتور احمد السالم"],
    fun hint names => if names.contains hint then some hint else none⟩

/-- Python dict lookup with default (`data.get(k, dflt)`); `collected_data`
is modelled as an insertion-ordered association list. -/
def dictGetD (d : List (String × String)) (k dflt : String) : String :=
  match d.find? (fun p => p.1 == k) with
  | some p => p.2
  | none => dflt

/-- Python `d[k] = v`: update in place when the key exists, else append. -/
def dictSet (d : List (String × String)) (k v : String) :
    List (String × String) :=
  match d with
  | [] => [(k, v)]
  | p :: rest => if p.1 = k then (p.1, v) :: rest else p :: dictSet rest k v

/-- src/core/formatter.py `format_booking_question`. -/
def formatBookingQuestion (state : String) (data : List (String × String)) :
    String :=
  if state = "name" then "ما اسمك؟"
  else if state = "phone" then
    let name := dictGetD data "name" ""
    if name ≠ "" then "مرحباً " ++ name ++ "! ما رقم جوالك؟"
    else "ما رقم جوالك؟"
  else if state = "service" then "أي خدمة تبي تحجز؟"
  else if state = "branch" then "أي فرع تفضل؟ (أو اكتب \x27تخطى\x27 للتخطي)"
  else if state = "date_time" then "متى تبي الموعد؟ (أو اكتب \x27تخطى\x27 للتخطي)"
  else "شكراً لك!"

/-- src/core/formatter.py `format_booking_confirmation`. -/
def formatBookingConfirmation : String := "✅ تم استلام طلبك وبنرجع لك نأكد الموعد"

/-- A booking-state row (models/booking.py `ConversationState`), keyed in
the store by its `(user_id, platform)` primary key. -/
structure ConvStateRow where
  state : String
  data : List (String × String)
deriving DecidableEq

/-- The payload fields of the `ticket_data` dict of `_complete_booking`
(timestamps as opaque strings). -/
structure TicketPayload where
  booking_id : String
  user_id : String
  platform : String
  patient_name : String
  patient_phone : String
  service_requested : String
  doctor_name : String
  preferred_branch : String
  preferred_date : String
  preferred_time : String
  status : String
  created_at : String
  notes : String
deriving DecidableEq

/-- A stored booking ticket row (models/booking.py `BookingTicket`). -/
structure TicketRow where
  user_id : String
  platform : String
  payload : TicketPayload
  status : String
deriving DecidableEq

/-- The booking-relevant database state: the `conversation_state` table
(at most one row per `(user_id, platform)`) and the append-only
`booking_tickets` table. -/
structure BookingStore where
  rows : List ((String × String) × ConvStateRow)
  tickets : List TicketRow
deriving DecidableEq

/-- `BookingManager.get_state`: the row for the identity, if any. -/
def getBState (st : BookingStore) (userId platform : String) :
    Option ConvStateRow :=
  (st.rows.find? (fun p => p.1 == (userId, platform))).map (fun p => p.2)

/-- `BookingManager.set_state` on the row list: update the existing row in
place, else insert. -/
def setBRows (rows : List ((String × String) × ConvStateRow))
    (key : String × String) (cs : ConvStateRow) :
    List ((String × String) × ConvStateRow) :=
  match rows with
  | [] => [(key, cs)]
  | p :: rest => if p.1 = key then (p.1, cs) :: rest else p :: setBRows rest key cs

/-- `BookingManager.set_state`. -/
def setBState (st : BookingStore) (userId platform state : String)
    (data : List (String × String)) : BookingStore :=
  { st with rows := setBRows st.rows (userId, platform) ⟨state, data⟩ }

/-- `BookingManager.clear_state` and the completion-time delete: remove the
row of the identity. -/
def clearBState (st : BookingStore) (userId platform : String) : BookingStore :=
  { st with rows := st.rows.filter (fun p => !(p.1 == (userId, platform))) }

/-- The clock-dependent externals of the booking flow: the
`datetime.utcnow()` strings used in `booking_id`/`created_at`, and
src/utils/date_parser.py `parse_relative_date` composed with
`strftime` with format `%Y-%m-%d` (it reads the current Riyadh date, so it is a
parameter of the embedding). -/
structure BookingEnv where
  nowStamp : String
  nowIso : String
  parseDate : String → Option String

/-- The `ticket_data` construction of `_complete_booking`. -/
def mkTicketPayload (env : BookingEnv) (userId platform : String)
    (data : List (String × String)) : TicketPayload where
  booking_id := "BD-" ++ env.nowStamp ++ "-" ++ (⟨userId.data.take 6⟩ : String)
  user_id := userId
  platform := platform
  patient_name := dictGetD data "name" ""
  patient_phone := dictGetD data "phone" ""
  service_requested := dictGetD data "service" ""
  doctor_name := dictGetD data "doctor_name" ""
  preferred_branch := dictGetD data "branch" ""
  preferred_date := dictGetD data "date" ""
  preferred_time := dictGetD data "time" ""
  status := "pending"
  created_at := env.nowIso
  notes := "حجز جديد من " ++ platform

/-- `BookingManager._complete_booking`: store exactly one ticket row, fire
the best-effort external sync (no state effect; failures are logged and
swallowed), delete the state row, return the confirmation. -/
def completeBooking (env : BookingEnv) (st : BookingStore)
    (userId platform : String) (data : List (String × String)) :
    BookingStore × String × Bool :=
  let ticket : TicketRow :=
    ⟨userId, platform, mkTicketPayload env userId platform data, "pending"⟩
  let st1 := { st with tickets := st.tickets ++ [ticket] }
  (clearBState st1 userId platform, formatBookingConfirmation, true)

/-- The optional-step skip tokens: `تخطى`, `skip`, `لا`, and the empty
string. -/
def SKIP_TOKENS : List String := ["تخطى", "skip", "لا", ""]

/-- src/core/booking.py `BookingManager.process_message`, returning the
updated store and the `(response_text, is_complete)` pair. -/
def processBookingMessage (env : BookingEnv) (st : BookingStore)
    (userId platform message : String) : BookingStore × String × Bool :=
  match getBState st userId platform with
  | none =>
    (setBState st userId platform "name" [], formatBookingQuestion "name" [],
      false)
  | some cs =>
    let collected := cs.data
    if cs.state = "name" then
      let collected := dictSet collected "name" (stripStr message)
      (setBState st userId platform "phone" collected,
        formatBookingQuestion "phone" collected, false)
    else if cs.state = "phone" then
      match normalize_phone message with
      | none => (st, "⚠️ الرقم مو صحيح. جرب مرة ثانية (مثال: 0501234567)", false)
      | some np =>
        let collected := dictSet collected "phone" np
        (setBState st userId platform "service" collected,
          formatBookingQuestion "service" collected, false)
    else if cs.state = "service" then
      let serviceText :=
        if dictGetD collected "service" "" ≠ "" then dictGetD collected "service" ""
        else stripStr message
      let collected := dictSet collected "service" serviceText
      (setBState st userId platform "branch" collected,
        formatBookingQuestion "branch" collected, false)
    else if cs.state = "branch" then
      let collected :=
        if !(SKIP_TOKENS.contains (stripLowerStr message)) then
          dictSet collected "branch" (stripStr message)
        else collected
      (setBState st userId platform "date_time" collected,
        formatBookingQuestion "date_time" collected, false)
    else if cs.state = "date_time" then
      let collected :=
        if !(SKIP_TOKENS.contains (stripLowerStr message)) then
          let collected :=
            match env.parseDate message with
            | some parsed => dictSet collected "date" parsed
            | none => dictSet collected "date" (stripStr message)
          dictSet collected "time" (stripStr message)
        else collected
      completeBooking env st userId platform collected
    else (st, "شكراً لك!", true)

/-- The router-visible state: the booking store plus the append-only
conversation-history table (`context_manager.add_to_context` rows,
`((user_id, platform), (message, response))` in insertion order). -/
structure RouterStore where
  booking : BookingStore
  history : List ((String × String) × (String × String))
deriving DecidableEq

def addTurn (st : RouterStore) (userId platform message response : String) :
    RouterStore :=
  { st with history := st.history ++ [((userId, platform), (message, response))] }

/-- The cancel keywords checked by `Router.process` while a booking is in
progress. -/
def CANCEL_WORDS : List String :=
  ["الغاء", "إلغاء", "خروج", "لا", "لا أريد", "لا اريد"]

def cancelReply : String := "تم إلغاء الحجز. كيف أقدر أساعدك؟"

/-- src/core/router.py `Router.process`, booking-state branch (lines 48–59):
cancel keywords first (substring match on the lowered, stripped message),
else full delegation to the booking state machine; both paths record the
turn.  Everything from intent classification onward (lines 61+) is the
`fallthrough` continuation, which runs only when no booking is in
progress. -/
def routerProcess (env : BookingEnv)
    (fallthrough : RouterStore → String → RouterStore × String)
    (st : RouterStore) (userId platform message : String) :
    RouterStore × String :=
  match getBState st.booking userId platform with
  | some _ =>
    let messageLower := lowerStripStr message
    if CANCEL_WORDS.any (fun w => subStr w messageLower) then
      let st1 := { st with booking := clearBState st.booking userId platform }
      (addTurn st1 userId platform message cancelReply, cancelReply)
    else
      let pr := processBookingMessage env st.booking userId platform message
      (addTurn { st with booking := pr.1 } userId platform message pr.2.1,
        pr.2.1)
  | none => fallthrough st message

/-- A concrete booking environment for the closed instances. -/
def bookingEnv0 : BookingEnv :=
  ⟨"20250101120000", "2025-01-01T12:00:00", fun _ => none⟩

/-- A store with one booking in progress in state `branch` for
`("u1", "whatsapp")`. -/
def c2Store : RouterStore :=
  ⟨⟨[(("u1", "whatsapp"),
      ⟨"branch", [("name", "احمد"), ("phone", "0501234567"),
        ("service", "اسنان")]⟩)], []⟩, []⟩

/-- One row of the conversation-history table as read back by
`get_recent_context` (`{message, response}`; the timestamp only orders
rows). -/
structure TurnEntry where
  message : String
  response : String
deriving DecidableEq

/-- The per-entry topic detection of `build_context_string`
(lines 117–127). -/
def topicsOfEntry (e : TurnEntry) : List String :=
  let message := lowerStr e.message
  let response := lowerStr e.response
  (if ["خدمة", "خدمات"].any (fun w => subStr w message || subStr w response)
   then ["خدمات"] else []) ++
  (if ["فرع", "فروع", "فرعنا"].any (fun w => subStr w message || subStr w response)
   then ["فروع"] else []) ++
  (if ["حجز", "موعد", "احجز"].any (fun w => subStr w message || subStr w response)
   then ["حجز"] else []) ++
  (if ["دوام", "ساعات", "وقت"].any (fun w => subStr w message || subStr w response)
   then ["أوقات الدوام"] else [])

def topicsMentioned (h : List TurnEntry) : List String :=
  h.foldl (fun acc e => acc ++ topicsOfEntry e) []

/-- The doctor-token extraction of `build_context_string` (lines 110–115):
for entries mentioning a doctor word, collect every token longer than three
characters that is not itself a doctor word, first seen first, no
duplicates. -/
def doctorTokensOfEntry (e : TurnEntry) (acc : List String) : List String :=
  let message := lowerStr e.message
  let response := lowerStr e.response
  if ["طبيب", "دكتور", "د."].any (fun w => subStr w message || subStr w response)
  then
    (splitWs message ++ splitWs response).foldl
      (fun acc2 word =>
        if 3 < word.length ∧ (["طبيب", "دكتور", "د."].contains word) = false ∧
            (acc2.contains word) = false
        then acc2 ++ [word] else acc2) acc
  else acc

def doctorsMentioned (h : List TurnEntry) : List String :=
  h.foldl (fun acc e => doctorTokensOfEntry e acc) []

def joinComma : List String → String := joinSep ", "

def joinNl : List String → String := joinSep "\n"

/-- The summary block of `build_context_string` (lines 129–138).  The Python
`list(set(topics_mentioned))` iterates a hash set in an unspecified order,
so the dedup ordering is the parameter `setOrd`; the summary length (which
is all the truncation loop reads) does not depend on it for equal-length
orderings, and no theorem below depends on a particular order. -/
def summaryOf (setOrd : List String → List String) (h : List TurnEntry) :
    String :=
  let topics := topicsMentioned h
  let doctors := doctorsMentioned h
  joinNl
    ((if topics ≠ [] then ["المواضيع المطروحة: " ++ joinComma (setOrd topics)]
      else []) ++
     (if doctors ≠ [] then ["أطباء تم ذكرهم: " ++ joinComma (doctors.take 5)]
      else []))

/-- `f"المستخدم: {message}\nالبوت: {response}\n\n"`. -/
def entryText (e : TurnEntry) : String :=
  "المستخدم: " ++ e.message ++ "\nالبوت: " ++ e.response ++ "\n\n"

/-- The truncation loop of `build_context_string` (lines 147–160): walk the
reversed history (most recent first), include each turn unless it would push
the cumulative length past `maxLen`, stopping at the first overflow. -/
def includedEntries (currentLen maxLen : Nat) : List TurnEntry → List TurnEntry
  | [] => []
  | e :: rest =>
    if currentLen + (entryText e).length > maxLen then []
    else e :: includedEntries (currentLen + (entryText e).length) maxLen rest

/-- src/core/context.py `ContextManager.build_context_string`. -/
def buildContextString (setOrd : List String → List String)
    (history : List TurnEntry) (maxLen : Nat) : String :=
  if history = [] then ""
  else
    let summary := summaryOf setOrd history
    let contextParts :=
      (if summary ≠ "" then ["ملخص المحادثة السابقة:\n" ++ summary ++ "\n"]
       else []) ++
      (includedEntries summary.length maxLen history.reverse).map entryText
    let result := stripStr (joinNl contextParts)
    if result ≠ "" then
      result ++
        "\n\n**مهم:** استخدم هذه المعلومات لفهم السياق وربط الأسئلة الحالية بالمحادثة السابقة."
    else result

/-- Index of the first occurrence of `needle` in `hay` (for locating a turn
inside the built context string). -/
def findSeqIdx (needle : List Char) : List Char → Option Nat
  | [] => if needle.isEmpty then some 0 else none
  | c :: rest =>
    if leadsList needle (c :: rest) then some 0
    else (findSeqIdx needle rest).map (fun n => n + 1)

/-- A two-turn history that triggers none of the summary keywords, so the
summary block is empty and both turns fit any generous bound. -/
def c3History : List TurnEntry := [⟨"aaaa", "r1"⟩, ⟨"bbbb", "r2"⟩]

/-- src/routes/webhook.py `check_message_dedupe`: empty ids are reported
fresh without touching the table; otherwise query the
`(platform, message_id)` row, and insert + report fresh when absent. -/
def checkMessageDedupe (db : List (String × String))
    (platform messageId : String) : Bool × List (String × String) :=
  if messageId = "" then (false, db)
  else if db.any (fun r => r.1 == platform && r.2 == messageId) then (true, db)
  else (false, db ++ [(platform, messageId)])

/-- A parsed inbound webhook message (`parse_incoming` output): user id,
text, and the delivery id from metadata (`metadata.get("message_id", "")`). -/
structure InboundMessage where
  userId : String
  text : String
  messageId : String
deriving DecidableEq

inductive WebhookOutcome
  | ignored
  | alreadyProcessed
  | rateLimited
  | processed
deriving DecidableEq

/-- The observable state of the webhook boundary: the dedupe table, the log
of router invocations, and the number of outbound replies sent. -/
structure WebhookState where
  processedMessages : List (String × String)
  routerLog : List (String × String × String)
  sentReplies : Nat
deriving DecidableEq

/-- The platform webhook POST handler (src/routes/webhook.py lines 68–104;
the Instagram and TikTok handlers have the identical shape): ignore events
without user or text, dedupe, rate-limit (`allowed` abstracts
`rate_limiter.is_allowed`), then invoke the router once (recorded in
`routerLog`) and send exactly one reply. -/
def webhookHandle (platform : String) (allowed : Bool) (st : WebhookState)
    (m : InboundMessage) : WebhookState × WebhookOutcome :=
  if m.userId = "" ∨ m.text = "" then (st, .ignored)
  else
    let checked := checkMessageDedupe st.processedMessages platform m.messageId
    let st1 := { st with processedMessages := checked.2 }
    if checked.1 then (st1, .alreadyProcessed)
    else if !allowed then
      ({ st1 with sentReplies := st1.sentReplies + 1 }, .rateLimited)
    else
      ({ st1 with
          routerLog := st1.routerLog ++ [(m.userId, platform, m.text)],
          sentReplies := st1.sentReplies + 1 }, .processed)

/-- Number of dedupe rows for a `(platform, message_id)` pair. -/
def countDedupe (db : List (String × String)) (platform messageId : String) :
    Nat :=
  (db.filter (fun r => r.1 == platform && r.2 == messageId)).length

/-- A character is untouched by every stage of the `normalize_ar` pipeline
except the outer strip. -/
def normStable (c : Char) : Prop :=
  toLowerC c = c ∧ (c == tatweel) = false ∧ isArDiacritic c = false ∧
    foldVariantC c = c ∧ arDigitC c = c

theorem charOfNat_toNat {n : Nat} (h : n < 55296) : (Char.ofNat n).toNat = n := by
  unfold Char.ofNat
  rw [dif_pos (Or.inl h)]
  rfl

theorem char_toNat_inj {a b : Char} (h : a.toNat = b.toNat) : a = b := by
  rw [← Char.ofNat_toNat a, h, Char.ofNat_toNat b]

theorem toLowerC_toNat (c : Char) :
    (toLowerC c).toNat =
      if 65 ≤ c.toNat ∧ c.toNat ≤ 90 then c.toNat + 32 else c.toNat := by
  unfold toLowerC
  split_ifs with h
  · exact charOfNat_toNat (by omega)
  · rfl

theorem toLowerC_fix {c : Char} (h : ¬(65 ≤ c.toNat ∧ c.toNat ≤ 90)) :
    toLowerC c = c := by
  unfold toLowerC
  exact if_neg h

theorem toLowerC_idem (c : Char) : toLowerC (toLowerC c) = toLowerC c := by
  by_cases h : 65 ≤ c.toNat ∧ c.toNat ≤ 90
  · apply toLowerC_fix
    rw [toLowerC_toNat, if_pos h]
    omega
  · rw [toLowerC_fix h, toLowerC_fix h]

theorem foldVariantC_fix {c : Char}
    (h : c.toNat ≠ 1571 ∧ c.toNat ≠ 1573 ∧ c.toNat ≠ 1570 ∧
      c.toNat ≠ 1609 ∧ c.toNat ≠ 1574 ∧ c.toNat ≠ 1572) :
    foldVariantC c = c := by
  unfold foldVariantC
  rw [if_neg, if_neg, if_neg]
  · rintro rfl; exact h.2.2.2.2.2 (by decide)
  · rintro (rfl | rfl)
    · exact h.2.2.2.1 (by decide)
    · exact h.2.2.2.2.1 (by decide)
  · rintro (rfl | rfl | rfl)
    · exact h.1 (by decide)
    · exact h.2.1 (by decide)
    · exact h.2.2.1 (by decide)

theorem foldVariantC_cases (c : Char) :
    foldVariantC c = c ∨ foldVariantC c = 'ا' ∨ foldVariantC c = 'ي' ∨
      foldVariantC c = 'و' := by
  unfold foldVariantC
  split_ifs <;> simp

theorem arDigitC_toNat (c : Char) :
    (arDigitC c).toNat =
      if 1632 ≤ c.toNat ∧ c.toNat ≤ 1641 then c.toNat - 1632 + 48
      else c.toNat := by
  unfold arDigitC
  split_ifs with h
  · exact charOfNat_toNat (by omega)
  · rfl

theorem arDigitC_fix {c : Char} (h : ¬(1632 ≤ c.toNat ∧ c.toNat ≤ 1641)) :
    arDigitC c = c := by
  unfold arDigitC
  exact if_neg h

theorem arDigitC_cases (c : Char) :
    arDigitC c = c ∨ (48 ≤ (arDigitC c).toNat ∧ (arDigitC c).toNat ≤ 57) := by
  by_cases h : 1632 ≤ c.toNat ∧ c.toNat ≤ 1641
  · right
    rw [arDigitC_toNat, if_pos h]
    omega
  · left
    exact arDigitC_fix h

theorem normStable_of_toNat_bounds {c : Char}
    (h48 : 48 ≤ c.toNat) (h57 : c.toNat ≤ 57) : normStable c := by
  refine ⟨toLowerC_fix (by omega), ?_, ?_, foldVariantC_fix (by omega),
    arDigitC_fix (by omega)⟩
  · have : c ≠ tatweel := by
      intro hc
      rw [hc] at h57
      revert h57
      decide
    simpa using this
  · unfold isArDiacritic
    simp only [decide_eq_false_iff_not]
    omega

theorem normStable_pipeline (z : Char)
    (ht : ((toLowerC z) == tatweel) = false)
    (hd : isArDiacritic (toLowerC z) = false) :
    normStable (arDigitC (foldVariantC (toLowerC z))) := by
  rcases foldVariantC_cases (toLowerC z) with hf | hf | hf | hf
  · rw [hf]
    rcases arDigitC_cases (toLowerC z) with hg | hg
    · rw [hg]
      exact ⟨toLowerC_idem z, ht, hd, hf, hg⟩
    · exact normStable_of_toNat_bounds hg.1 hg.2
  · rw [hf]; constructor <;> decide
  · rw [hf]; constructor <;> decide
  · rw [hf]; constructor <;> decide

theorem mem_of_mem_pyStripL {c : Char} {l : List Char}
    (h : c ∈ pyStripL l) : c ∈ l := by
  unfold pyStripL at h
  rw [List.mem_reverse] at h
  have h2 : c ∈ (l.dropWhile isPyWs).reverse :=
    (List.dropWhile_sublist _).mem h
  rw [List.mem_reverse] at h2
  exact (List.dropWhile_sublist _).mem h2

theorem map_eq_self_of_mem {l : List Char} {f : Char → Char}
    (h : ∀ c ∈ l, f c = c) : l.map f = l := by
  induction l with
  | nil => rfl
  | cons a t ih =>
      simp only [List.map_cons, h a (by simp)]
      rw [ih (fun c hc => h c (List.mem_cons_of_mem a hc))]

theorem normStable_of_mem {c : Char} {l : List Char}
    (h : c ∈ normalizeArL l) : normStable c := by
  unfold normalizeArL at h
  rcases List.mem_map.mp h with ⟨b, hb, rfl⟩
  rcases List.mem_map.mp hb with ⟨a, ha, rfl⟩
  rcases List.mem_filter.mp ha with ⟨ha2, hdia⟩
  rcases List.mem_filter.mp ha2 with ⟨ha3, htat⟩
  rcases List.mem_map.mp ha3 with ⟨z, _, rfl⟩
  refine normStable_pipeline z ?_ ?_
  · simpa using htat
  · simpa using hdia

theorem normalizeArL_stable {l : List Char} (h : ∀ c ∈ l, normStable c) :
    normalizeArL l = pyStripL l := by
  have hmem : ∀ c ∈ pyStripL l, normStable c :=
    fun c hc => h c (mem_of_mem_pyStripL hc)
  have e1 : (pyStripL l).map toLowerC = pyStripL l :=
    map_eq_self_of_mem (fun c hc => (hmem c hc).1)
  have e2 : (pyStripL l).filter (fun c => !(c == tatweel)) = pyStripL l :=
    List.filter_eq_self.mpr (fun c hc => by simpa using (hmem c hc).2.1)
  have e3 : (pyStripL l).filter (fun c => !(isArDiacritic c)) = pyStripL l :=
    List.filter_eq_self.mpr (fun c hc => by simp [(hmem c hc).2.2.1])
  have e4 : (pyStripL l).map foldVariantC = pyStripL l :=
    map_eq_self_of_mem (fun c hc => (hmem c hc).2.2.2.1)
  have e5 : (pyStripL l).map arDigitC = pyStripL l :=
    map_eq_self_of_mem (fun c hc => (hmem c hc).2.2.2.2)
  unfold normalizeArL
  rw [e1, e2, e3, e4, e5]

/-- C8 (counterexample): `normalize_ar` is not idempotent.  On the input
`"ا ـ"` (alef, space, tatweel) removing the tatweel exposes a trailing space
that only a second pass strips, so `normalize_ar (normalize_ar x)` differs
from `normalize_ar x`. -/
theorem c8_counterexample :
    normalize_ar (normalize_ar "ا ـ") ≠ normalize_ar "ا ـ" := by decide

/-- C8 (amended): a second application of `normalize_ar` coincides with
stripping the first result — so normalization is idempotent exactly on
inputs whose normal form carries no leading/trailing whitespace — and the
alef variants `أحمد`/`احمد`/`إحمد` all normalize to the same string. -/
theorem c8_amended : ∀ s : String,
    normalize_ar (normalize_ar s) = stripStr (normalize_ar s) ∧
    normalize_ar "أحمد" = normalize_ar "احمد" ∧
    normalize_ar "احمد" = normalize_ar "إحمد" := by
  intro s
  refine ⟨?_, by decide, by decide⟩
  by_cases h0 : s = ""
  · subst h0; decide
  · have h1 : normalize_ar s = ⟨normalizeArL s.data⟩ := by
      rw [normalize_ar, if_neg h0]
    rw [h1]
    by_cases hy0 : (⟨normalizeArL s.data⟩ : String) = ""
    · rw [normalize_ar, if_pos hy0, hy0]
      decide
    · rw [normalize_ar, if_neg hy0]
      exact congrArg String.mk
        (normalizeArL_stable (fun c hc => normStable_of_mem hc))

theorem contains_eq_decide_mem (l : List String) (a : String) :
    l.contains a = decide (a ∈ l) := by
  by_cases h : a ∈ l <;> simp [h]

theorem iteStartIff (b : Bool) :
    ((if b = true then "start_booking" else "ask_clarification") =
      "start_booking") ↔ b = true := by
  cases b
  · constructor
    · intro h; exact absurd h (by decide)
    · intro h; exact absurd h (by decide)
  · simp

/-- C9: `merge_entities` returns every preferred entity, in order, followed
by exactly those fallback entities (in order) whose type does not occur in
the preferred list; on the example from the spec the result is date=A (not B)
followed by phone=C. -/
theorem c9_merge_entities :
    (∀ p f : List Entity,
        (mergeEntities p f).take p.length = p ∧
        (mergeEntities p f).drop p.length =
          f.filter (fun e => decide (e.type ∉ p.map (fun x => x.type)))) ∧
      mergeEntities [⟨"date", "A", conf 90⟩]
          [⟨"date", "B", conf 90⟩, ⟨"phone", "C", conf 90⟩] =
        [⟨"date", "A", conf 90⟩, ⟨"phone", "C", conf 90⟩] := by
  refine ⟨fun p f => ⟨?_, ?_⟩, by decide⟩
  · unfold mergeEntities
    exact List.take_left p _
  · unfold mergeEntities
    rw [List.drop_left p]
    refine List.filter_congr (fun e _ => ?_)
    rw [contains_eq_decide_mem]
    by_cases h : e.type ∈ p.map (fun x => x.type) <;> simp [h]

/-- C1 (counterexample): the bare word `موعد` (appointment) contains no
want/request token, yet the rule-based stage of the intent classifier
classifies it as booking: `موعد` is itself a member of `BOOKING_WORDS`, so
the booking score reaches the short-circuit threshold. -/
theorem c1_counterexample :
    (classifyRules emptyClassifierParams "موعد").map (fun r => r.intent) =
        some "booking" ∧
      WANT_VERBS.all (fun v => !(subStr v (classifierNorm "موعد"))) = true := by
  constructor <;> decide

/-- C1 (amended): the rule stage classifies as booking any message that
contains one of the `BOOKING_WORDS` tokens — including the bare words
`حجز`/`موعد`; want/request phrases merely add the `BOOKING_STRICT` bonus —
provided no greeting/thanks/goodbye rule reaches its own threshold first,
and its next_action is determined by the regex-extracted entities. -/
theorem c1_amended (P : ClassifierParams) (msg : String)
    (hb : containsAnyOf BOOKING_WORDS (classifierNorm msg) = true)
    (hg : greetingScore (classifierNorm msg) (cleanKey (classifierNorm msg)) < 10)
    (ht : thanksScore (classifierNorm msg) < 10)
    (hgb : goodbyeScore (classifierNorm msg) < 10) :
    (classifyRules P msg).map
        (fun r => (r.intent, r.confidence, r.next_action)) =
      some ("booking", conf 92, bookingActionOf (quickExtractEntities msg)) := by
  unfold classifyRules
  rw [if_neg (by omega), if_neg (by omega), if_neg (by omega), if_pos ?_]
  · rfl
  · unfold bookingScore
    rw [if_pos hb]
    split_ifs <;> omega

theorem c1_amended_witness :
    (classifyRules emptyClassifierParams "موعد").map
        (fun r => (r.intent, r.confidence, r.next_action)) =
      some ("booking", conf 92, bookingActionOf (quickExtractEntities "موعد")) :=
  c1_amended emptyClassifierParams "موعد" (by decide) (by decide) (by decide)
    (by decide)

/-- C4 (counterexample): on the rule short-circuit path, `booking_action()`
inspects the regex-extracted entities while the returned entity list is the
hint-augmented `extracted2`: for this message the returned list contains a
doctor_name entity (a key type) yet `next_action` is `ask_clarification`,
not `start_booking`. -/
theorem c4_counterexample :
    classify c4Params none "ابي احجز مع دكتور احمد السالم" =
        ⟨"booking", [⟨"doctor_name", "دكتور احمد السالم", conf 90⟩], conf 92,
          "ask_clarification"⟩ ∧
      hasKeyEntity [⟨"doctor_name", "دكتور احمد السالم", conf 90⟩] = true := by
  constructor <;> decide

/-- C4 (amended): whenever the returned intent is booking, on the LLM path
and on the rule-fallback path `next_action` matches the presence of a
key-typed entity in the returned entity list, but on the rule short-circuit
path it matches the presence of a key-typed entity in the regex-extracted
list before doctor-name hinting. -/
theorem c4_amended :
    (∀ (d : LLMData) (extracted : List Entity),
        (llmPostprocess d extracted).intent = "booking" →
        ((llmPostprocess d extracted).next_action = "start_booking" ↔
          hasKeyEntity (llmPostprocess d extracted).entities = true)) ∧
    (∀ (P : ClassifierParams) (message : String) (extracted : List Entity),
        (fallbackClassify P message extracted).intent = "booking" →
        ((fallbackClassify P message extracted).next_action = "start_booking" ↔
          hasKeyEntity (fallbackClassify P message extracted).entities = true)) ∧
    (∀ (P : ClassifierParams) (msg : String) (r : IntentResult),
        classifyRules P msg = some r → r.intent = "booking" →
        (r.next_action = "start_booking" ↔
          hasKeyEntity (quickExtractEntities msg) = true)) := by
  refine ⟨?_, ?_, ?_⟩
  · intro d extracted h
    simp only [llmPostprocess] at h ⊢
    rw [if_pos h]
    exact iteStartIff _
  · intro P message extracted h
    simp only [fallbackClassify] at h ⊢
    by_cases c1 : (List.map cleanKey SIMPLE_GREETINGS).contains
          (cleanKey (classifierNorm message)) = true
        ∨ containsAnyOf GREETING_HINTS (classifierNorm message) = true
    · rw [if_pos c1] at h
      exact absurd (show ("greeting" : String) = "booking" from h) (by decide)
    · rw [if_neg c1] at h ⊢
      by_cases c2 : containsAnyOf THANKS_HINTS (classifierNorm message) = true
      · rw [if_pos c2] at h
        exact absurd (show ("thanks" : String) = "booking" from h) (by decide)
      · rw [if_neg c2] at h ⊢
        by_cases c3 : containsAnyOf GOODBYE_HINTS (classifierNorm message) = true
        · rw [if_pos c3] at h
          exact absurd (show ("goodbye" : String) = "booking" from h) (by decide)
        · rw [if_neg c3] at h ⊢
          by_cases c4 : containsAnyOf BOOKING_WORDS (classifierNorm message) = true
          · rw [if_pos c4]
            exact iteStartIff _
          · rw [if_neg c4] at h ⊢
            by_cases c5 : containsAnyOf HOURS_HINTS (classifierNorm message) = true
            · rw [if_pos c5] at h
              exact absurd (show ("hours" : String) = "booking" from h) (by decide)
            · rw [if_neg c5] at h ⊢
              by_cases c6 : containsAnyOf DOCTOR_LIST_HINTS (classifierNorm message) = true
                  ∨ (subStr "مين" (classifierNorm message) = true ∧
                      (subStr "اطباء" (classifierNorm message) = true ∨
                        subStr "دكاتره" (classifierNorm message) = true ∨
                        subStr "دكاترة" (classifierNorm message) = true))
              · rw [if_pos c6] at h
                exact absurd (show ("doctor" : String) = "booking" from h) (by decide)
              · rw [if_neg c6] at h ⊢
                by_cases c7 : containsAnyOf BRANCH_HINTS (classifierNorm message) = true
                · rw [if_pos c7] at h
                  exact absurd (show ("branch" : String) = "booking" from h) (by decide)
                · rw [if_neg c7] at h ⊢
                  by_cases c8 : containsAnyOf SERVICE_HINTS (classifierNorm message) = true
                  · rw [if_pos c8] at h
                    exact absurd (show ("service" : String) = "booking" from h) (by decide)
                  · rw [if_neg c8] at h
                    exact absurd (show ("unclear" : String) = "booking" from h) (by decide)
  · intro P msg r hr hint
    simp only [classifyRules] at hr
    by_cases k1 : greetingScore (classifierNorm msg) (cleanKey (classifierNorm msg)) ≥ 10
    · rw [if_pos k1] at hr
      injection hr with h2
      subst h2
      exact absurd (show ("greeting" : String) = "booking" from hint) (by decide)
    · rw [if_neg k1] at hr
      by_cases k2 : thanksScore (classifierNorm msg) ≥ 10
      · rw [if_pos k2] at hr
        injection hr with h2
        subst h2
        exact absurd (show ("thanks" : String) = "booking" from hint) (by decide)
      · rw [if_neg k2] at hr
        by_cases k3 : goodbyeScore (classifierNorm msg) ≥ 10
        · rw [if_pos k3] at hr
          injection hr with h2
          subst h2
          exact absurd (show ("goodbye" : String) = "booking" from hint) (by decide)
        · rw [if_neg k3] at hr
          by_cases k4 : bookingScore (classifierNorm msg) ≥ 9
          · rw [if_pos k4] at hr
            injection hr with h2
            subst h2
            unfold bookingActionOf
            exact iteStartIff _
          · rw [if_neg k4] at hr
            by_cases k5 : hoursScore (classifierNorm msg) ≥ 9
            · rw [if_pos k5] at hr
              injection hr with h2
              subst h2
              exact absurd (show ("hours" : String) = "booking" from hint) (by decide)
            · rw [if_neg k5] at hr
              by_cases k6 : (splitWs (classifierNorm msg)).length ≤ 2
              · rw [if_pos k6] at hr
                by_cases k7 : doctorScore (classifierNorm msg) ≥ 7
                · rw [if_pos k7] at hr
                  injection hr with h2
                  subst h2
                  exact absurd (show ("doctor" : String) = "booking" from hint) (by decide)
                · rw [if_neg k7] at hr
                  by_cases k8 : branchScore (classifierNorm msg) ≥ 6
                  · rw [if_pos k8] at hr
                    injection hr with h2
                    subst h2
                    exact absurd (show ("branch" : String) = "booking" from hint) (by decide)
                  · rw [if_neg k8] at hr
                    by_cases k9 : serviceScore (classifierNorm msg) ≥ 6
                    · rw [if_pos k9] at hr
                      injection hr with h2
                      subst h2
                      exact absurd (show ("service" : String) = "booking" from hint) (by decide)
                    · rw [if_neg k9] at hr
                      injection hr with h2
                      subst h2
                      exact absurd (show ("general" : String) = "booking" from hint) (by decide)
              · rw [if_neg k6] at hr
                by_cases k10 : doctorScore (classifierNorm msg) ≥ 8
                · rw [if_pos k10] at hr
                  injection hr with h2
                  subst h2
                  exact absurd (show ("doctor" : String) = "booking" from hint) (by decide)
                · rw [if_neg k10] at hr
                  by_cases k11 : branchScore (classifierNorm msg) ≥ 7 ∧
                      subStr "وين" (classifierNorm msg) = true
                  · rw [if_pos k11] at hr
                    injection hr with h2
                    subst h2
                    exact absurd (show ("branch" : String) = "booking" from hint) (by decide)
                  · rw [if_neg k11] at hr
                    by_cases k12 : serviceScore (classifierNorm msg) ≥ 7
                    · rw [if_pos k12] at hr
                      injection hr with h2
                      subst h2
                      exact absurd (show ("service" : String) = "booking" from hint) (by decide)
                    · rw [if_neg k12] at hr
                      by_cases k13 : generalScore (classifierNorm msg) ≥ 8
                      · rw [if_pos k13] at hr
                        injection hr with h2
                        subst h2
                        exact absurd (show ("general" : String) = "booking" from hint) (by decide)
                      · rw [if_neg k13] at hr
                        exact Option.noConfusion hr

theorem c4_amended_witness :
    (("ask_clarification" : String) = "start_booking" ↔
      hasKeyEntity (quickExtractEntities "موعد") = true) := by
  have h := c4_amended.2.2 emptyClassifierParams "موعد"
    ⟨"booking", [], conf 92, "ask_clarification"⟩ (by decide) rfl
  simpa using h

theorem beq_char_false (x : Char) {c : Char} {n : Nat} (hx : x.toNat = n)
    (h : c.toNat ≠ n) : (c == x) = false := by
  rw [beq_eq_false_iff_ne]
  intro e
  rw [e] at h
  exact h hx

theorem isPyWs_false {c : Char}
    (h : c.toNat ≠ 32 ∧ c.toNat ≠ 9 ∧ c.toNat ≠ 10 ∧ c.toNat ≠ 13 ∧
      c.toNat ≠ 11 ∧ c.toNat ≠ 12) : isPyWs c = false := by
  unfold isPyWs
  rw [beq_char_false ' ' (by decide) h.1,
    beq_char_false '\t' (by decide) h.2.1,
    beq_char_false '\n' (by decide) h.2.2.1,
    beq_char_false '\r' (by decide) h.2.2.2.1,
    beq_char_false '\x0b' (by decide) h.2.2.2.2.1,
    beq_char_false '\x0c' (by decide) h.2.2.2.2.2]
  rfl

theorem isPyWs_toLowerC (c : Char) : isPyWs (toLowerC c) = isPyWs c := by
  by_cases h : 65 ≤ c.toNat ∧ c.toNat ≤ 90
  · have h2 : (toLowerC c).toNat = c.toNat + 32 := by
      rw [toLowerC_toNat, if_pos h]
    have e1 : isPyWs (toLowerC c) = false := isPyWs_false (by omega)
    have e2 : isPyWs c = false := isPyWs_false (by omega)
    rw [e1, e2]
  · rw [toLowerC_fix h]

theorem pyStrip_map_toLowerC (l : List Char) :
    pyStripL (l.map toLowerC) = (pyStripL l).map toLowerC := by
  unfold pyStripL
  have hws : (isPyWs ∘ toLowerC) = isPyWs := funext isPyWs_toLowerC
  rw [List.dropWhile_map, hws, ← List.map_reverse, List.dropWhile_map, hws,
    ← List.map_reverse]

/-- `message.strip().lower()` and `message.lower().strip()` agree: lowering
never changes whitespace-ness. -/
theorem stripLower_eq_lowerStrip (s : String) :
    stripLowerStr s = lowerStripStr s := by
  show (⟨(pyStripL s.data).map toLowerC⟩ : String) =
    ⟨pyStripL (s.data.map toLowerC)⟩
  exact congrArg String.mk (pyStrip_map_toLowerC s.data).symm

theorem find_setBRows (rows : List ((String × String) × ConvStateRow))
    (key : String × String) (cs : ConvStateRow) :
    (setBRows rows key cs).find? (fun p => p.1 == key) = some (key, cs) := by
  induction rows with
  | nil => simp [setBRows]
  | cons a rest ih =>
      unfold setBRows
      by_cases h : a.1 = key
      · rw [if_pos h]
        rw [List.find?_cons_of_pos _ (by simp [h])]
        rw [h]
      · rw [if_neg h]
        rw [List.find?_cons_of_neg _ (by simp [h])]
        exact ih

theorem getBState_set (st : BookingStore) (u p state : String)
    (d : List (String × String)) :
    getBState (setBState st u p state d) u p = some ⟨state, d⟩ := by
  unfold getBState setBState
  rw [find_setBRows]
  rfl

theorem getBState_clear (st : BookingStore) (u p : String) :
    getBState (clearBState st u p) u p = none := by
  unfold getBState clearBState
  rw [List.find?_eq_none.mpr]
  · rfl
  · intro x hx
    simp only [List.mem_filter] at hx
    simpa using hx.2

theorem completeBooking_spec (env : BookingEnv) (st : BookingStore)
    (u p : String) (data : List (String × String)) :
    (completeBooking env st u p data).1.tickets =
        st.tickets ++ [⟨u, p, mkTicketPayload env u p data, "pending"⟩] ∧
      getBState (completeBooking env st u p data).1 u p = none ∧
      (completeBooking env st u p data).2.1 = formatBookingConfirmation ∧
      (completeBooking env st u p data).2.2 = true := by
  refine ⟨rfl, ?_, rfl, rfl⟩
  exact getBState_clear _ _ _

/-- C5: in booking state `phone`, a message that does not normalize to a
valid Saudi mobile number produces the validation-error reply, leaves the
whole store unchanged (state still `phone`, collected data untouched), and
does not complete the booking. -/
theorem c5_phone_invalid (env : BookingEnv) (st : BookingStore)
    (userId platform message : String) (d : List (String × String))
    (hstate : getBState st userId platform = some ⟨"phone", d⟩)
    (hphone : normalize_phone message = none) :
    processBookingMessage env st userId platform message =
      (st, "⚠️ الرقم مو صحيح. جرب مرة ثانية (مثال: 0501234567)", false) := by
  unfold processBookingMessage
  rw [hstate]
  dsimp only
  rw [if_neg (by decide : ¬("phone" : String) = "name"),
    if_pos (rfl : ("phone" : String) = "phone"), hphone]

theorem c5_phone_invalid_witness :
    processBookingMessage bookingEnv0
        ⟨[(("u1", "whatsapp"), ⟨"phone", [("name", "احمد")]⟩)], []⟩
        "u1" "whatsapp" "123" =
      (⟨[(("u1", "whatsapp"), ⟨"phone", [("name", "احمد")]⟩)], []⟩,
        "⚠️ الرقم مو صحيح. جرب مرة ثانية (مثال: 0501234567)", false) :=
  c5_phone_invalid bookingEnv0 _ "u1" "whatsapp" "123" [("name", "احمد")]
    (by decide) (by decide)

/-- C6: in booking state `date_time`, processing any message appends exactly
one ticket row to the ticket table, deletes the booking-state record for the
identity (no booking state remains for it), and reports completion. -/
theorem c6_date_time_completes (env : BookingEnv) (st : BookingStore)
    (userId platform message : String) (d : List (String × String))
    (hstate : getBState st userId platform = some ⟨"date_time", d⟩) :
    (∃ t, (processBookingMessage env st userId platform message).1.tickets =
        st.tickets ++ [t]) ∧
      getBState (processBookingMessage env st userId platform message).1
          userId platform = none ∧
      (processBookingMessage env st userId platform message).2.2 = true := by
  unfold processBookingMessage
  rw [hstate]
  dsimp only
  rw [if_neg (by decide : ¬("date_time" : String) = "name"),
    if_neg (by decide : ¬("date_time" : String) = "phone"),
    if_neg (by decide : ¬("date_time" : String) = "service"),
    if_neg (by decide : ¬("date_time" : String) = "branch"),
    if_pos (rfl : ("date_time" : String) = "date_time")]
  by_cases hskip : (SKIP_TOKENS.contains (stripLowerStr message)) = true
  · rw [hskip, if_neg (by decide : ¬((!true) = true))]
    obtain ⟨h1, h2, _, h4⟩ := completeBooking_spec env st userId platform d
    exact ⟨⟨_, h1⟩, h2, h4⟩
  · rw [Bool.not_eq_true] at hskip
    rw [hskip, if_pos (by decide : (!false) = true)]
    cases henv : env.parseDate message with
    | none =>
        obtain ⟨h1, h2, _, h4⟩ := completeBooking_spec env st userId platform
          (dictSet (dictSet d "date" (stripStr message)) "time" (stripStr message))
        exact ⟨⟨_, h1⟩, h2, h4⟩
    | some parsed =>
        obtain ⟨h1, h2, _, h4⟩ := completeBooking_spec env st userId platform
          (dictSet (dictSet d "date" parsed) "time" (stripStr message))
        exact ⟨⟨_, h1⟩, h2, h4⟩

theorem c6_date_time_completes_witness :
    (∃ t, (processBookingMessage bookingEnv0
        ⟨[(("u1", "whatsapp"),
            ⟨"date_time", [("name", "احمد"), ("phone", "0501234567"),
              ("service", "اسنان")]⟩)], []⟩
        "u1" "whatsapp" "تخطى").1.tickets = ([] : List TicketRow) ++ [t]) ∧
      getBState (processBookingMessage bookingEnv0
          ⟨[(("u1", "whatsapp"),
              ⟨"date_time", [("name", "احمد"), ("phone", "0501234567"),
                ("service", "اسنان")]⟩)], []⟩
          "u1" "whatsapp" "تخطى").1 "u1" "whatsapp" = none ∧
      (processBookingMessage bookingEnv0
          ⟨[(("u1", "whatsapp"),
              ⟨"date_time", [("name", "احمد"), ("phone", "0501234567"),
                ("service", "اسنان")]⟩)], []⟩
          "u1" "whatsapp" "تخطى").2.2 = true :=
  c6_date_time_completes bookingEnv0 _ "u1" "whatsapp" "تخطى"
    [("name", "احمد"), ("phone", "0501234567"), ("service", "اسنان")]
    (by decide)

/-- C2 (counterexample): with a booking in progress in state `branch`,
sending the skip token `لا` through `Router.process` does not skip the
optional branch field and advance to `date_time`:  `لا` is also one of the
cancel keywords of the router, which are checked first, so the booking-state
record is deleted and the fixed cancellation reply is returned. -/
theorem c2_counterexample :
    (routerProcess bookingEnv0 (fun s _ => (s, "")) c2Store "u1" "whatsapp"
          "لا").2 = cancelReply ∧
      getBState (routerProcess bookingEnv0 (fun s _ => (s, "")) c2Store "u1"
          "whatsapp" "لا").1.booking "u1" "whatsapp" = none := by
  constructor <;> decide

/-- C2 (amended): in booking state `branch`, the skip tokens `تخطى`, `skip`
and the empty message behave as the claim states — the collected data is
unchanged (branch left unset), the state advances to `date_time`, the
date_time prompt is returned, and nothing is cancelled or deleted — but the
fourth skip token `لا` matches the cancel-keyword check of the router, which runs
first, and cancels the booking instead. -/
theorem c2_amended (env : BookingEnv)
    (fallthrough : RouterStore → String → RouterStore × String)
    (st : RouterStore) (userId platform message : String)
    (d : List (String × String))
    (hstate : getBState st.booking userId platform = some ⟨"branch", d⟩)
    (hmsg : lowerStripStr message = "تخطى" ∨ lowerStripStr message = "skip" ∨
      lowerStripStr message = "") :
    (routerProcess env fallthrough st userId platform message).2 =
        formatBookingQuestion "date_time" d ∧
      getBState
          (routerProcess env fallthrough st userId platform message).1.booking
          userId platform = some ⟨"date_time", d⟩ ∧
      (routerProcess env fallthrough st userId platform
          message).1.booking.tickets = st.booking.tickets := by
  have hcancel : CANCEL_WORDS.any
      (fun w => subStr w (lowerStripStr message)) = false := by
    rcases hmsg with h | h | h <;> rw [h] <;> decide
  have hskip : SKIP_TOKENS.contains (stripLowerStr message) = true := by
    rw [stripLower_eq_lowerStrip]
    rcases hmsg with h | h | h <;> rw [h] <;> decide
  have hproc : processBookingMessage env st.booking userId platform message =
      (setBState st.booking userId platform "date_time" d,
        formatBookingQuestion "date_time" d, false) := by
    unfold processBookingMessage
    rw [hstate]
    dsimp only
    rw [if_neg (by decide : ¬("branch" : String) = "name"),
      if_neg (by decide : ¬("branch" : String) = "phone"),
      if_neg (by decide : ¬("branch" : String) = "service"),
      if_pos (rfl : ("branch" : String) = "branch"),
      hskip, if_neg (by decide : ¬((!true) = true))]
  unfold routerProcess
  rw [hstate]
  dsimp only
  rw [hcancel, if_neg (by decide : ¬(false = true)), hproc]
  refine ⟨rfl, ?_, rfl⟩
  exact getBState_set st.booking userId platform "date_time" d

theorem c2_amended_witness :
    (routerProcess bookingEnv0 (fun s _ => (s, "")) c2Store "u1" "whatsapp"
          "تخطى").2 =
        formatBookingQuestion "date_time"
          [("name", "احمد"), ("phone", "0501234567"), ("service", "اسنان")] ∧
      getBState (routerProcess bookingEnv0 (fun s _ => (s, "")) c2Store "u1"
          "whatsapp" "تخطى").1.booking "u1" "whatsapp" =
        some ⟨"date_time",
          [("name", "احمد"), ("phone", "0501234567"), ("service", "اسنان")]⟩ ∧
      (routerProcess bookingEnv0 (fun s _ => (s, "")) c2Store "u1" "whatsapp"
          "تخطى").1.booking.tickets = c2Store.booking.tickets :=
  c2_amended bookingEnv0 (fun s _ => (s, "")) c2Store "u1" "whatsapp" "تخطى"
    [("name", "احمد"), ("phone", "0501234567"), ("service", "اسنان")]
    (by decide) (Or.inl (by decide))

/-- C3 (counterexample): on a two-turn history both of whose turns fit the
bound, `build_context_string` lists the NEWER turn first: the turns are
included in reverse-chronological order (`bbbb`, the newer message, appears
at index 10, before `aaaa`, the older one, at index 37), refuting
oldest-kept-turn-first order. -/
theorem c3_counterexample :
    includedEntries 0 2000 c3History.reverse =
        [⟨"bbbb", "r2"⟩, ⟨"aaaa", "r1"⟩] ∧
      findSeqIdx "bbbb".data
          (buildContextString (fun l => l) c3History 2000).data = some 10 ∧
      findSeqIdx "aaaa".data
          (buildContextString (fun l => l) c3History 2000).data = some 37 ∧
      (10 : Nat) < 37 := by
  refine ⟨by decide, by decide, by decide, by decide⟩

/-- C3 (amended): the truncation loop of `build_context_string` takes its
turns from the reversed history: the included turns always form a prefix of
`history.reverse`, i.e. they appear most-recent-first (reverse-chronological
order), not oldest-kept-turn first; on the two-turn example the assembled
string shows the newer turn before the older one. -/
theorem c3_amended_newest_first :
    (∀ (s m : Nat) (l : List TurnEntry),
        ∃ n, includedEntries s m l = l.take n) ∧
      buildContextString (fun l => l) c3History 2000 =
        "المستخدم: bbbb\nالبوت: r2\n\n\nالمستخدم: aaaa\nالبوت: r1\n\n**مهم:** استخدم هذه المعلومات لفهم السياق وربط الأسئلة الحالية بالمحادثة السابقة." := by
  constructor
  · intro s m l
    induction l generalizing s with
    | nil => exact ⟨0, rfl⟩
    | cons e rest ih =>
        unfold includedEntries
        by_cases h : s + (entryText e).length > m
        · rw [if_pos h]
          exact ⟨0, rfl⟩
        · rw [if_neg h]
          obtain ⟨n, hn⟩ := ih (s + (entryText e).length)
          exact ⟨n + 1, by rw [hn, List.take_succ_cons]⟩
  · decide

theorem any_false_of_count_zero {db : List (String × String)}
    {f : String × String → Bool} (h : (db.filter f).length = 0) :
    db.any f = false := by
  rw [List.length_eq_zero, List.filter_eq_nil_iff] at h
  rw [List.any_eq_false]
  exact h

theorem checkDedupe_fresh {db : List (String × String)}
    {platform messageId : String} (hid : messageId ≠ "")
    (hany : db.any (fun r => r.1 == platform && r.2 == messageId) = false) :
    checkMessageDedupe db platform messageId =
      (false, db ++ [(platform, messageId)]) := by
  unfold checkMessageDedupe
  rw [if_neg hid, hany, if_neg (by decide : ¬(false = true))]

theorem checkDedupe_dup {db : List (String × String)}
    {platform messageId : String} (hid : messageId ≠ "")
    (hany : db.any (fun r => r.1 == platform && r.2 == messageId) = true) :
    checkMessageDedupe db platform messageId = (true, db) := by
  unfold checkMessageDedupe
  rw [if_neg hid, hany, if_pos (rfl : true = true)]

/-- C7: delivering the same `(platform, delivery_id)` webhook message twice
in sequence — a message that carries a delivery id (non-empty), has user and
text, is not yet in the dedupe table, and passes the rate limiter — results
in exactly one router invocation, exactly one outbound reply, and exactly
one dedupe row for the id; the second delivery is acknowledged as already
processed without reprocessing. -/
theorem c7_idempotent_delivery (platform : String) (st : WebhookState)
    (m : InboundMessage) (hu : m.userId ≠ "") (ht : m.text ≠ "")
    (hid : m.messageId ≠ "")
    (hfresh : countDedupe st.processedMessages platform m.messageId = 0) :
    (webhookHandle platform true st m).2 = .processed ∧
      (webhookHandle platform true
          (webhookHandle platform true st m).1 m).2 = .alreadyProcessed ∧
      (webhookHandle platform true
          (webhookHandle platform true st m).1 m).1.routerLog =
        st.routerLog ++ [(m.userId, platform, m.text)] ∧
      (webhookHandle platform true
          (webhookHandle platform true st m).1 m).1.sentReplies =
        st.sentReplies + 1 ∧
      countDedupe (webhookHandle platform true
            (webhookHandle platform true st m).1 m).1.processedMessages
          platform m.messageId = 1 := by
  have hguard : ¬(m.userId = "" ∨ m.text = "") := fun h => h.elim hu ht
  have hany : st.processedMessages.any
      (fun r => r.1 == platform && r.2 == m.messageId) = false :=
    any_false_of_count_zero hfresh
  have h1 : webhookHandle platform true st m =
      ({ processedMessages := st.processedMessages ++ [(platform, m.messageId)],
         routerLog := st.routerLog ++ [(m.userId, platform, m.text)],
         sentReplies := st.sentReplies + 1 }, .processed) := by
    unfold webhookHandle
    rw [if_neg hguard, checkDedupe_fresh hid hany]
    rfl
  have hany2 : (st.processedMessages ++ [(platform, m.messageId)]).any
      (fun r => r.1 == platform && r.2 == m.messageId) = true := by
    rw [List.any_append, hany]
    simp
  have h2 : webhookHandle platform true
      ({ processedMessages := st.processedMessages ++ [(platform, m.messageId)],
         routerLog := st.routerLog ++ [(m.userId, platform, m.text)],
         sentReplies := st.sentReplies + 1 } : WebhookState) m =
      ({ processedMessages := st.processedMessages ++ [(platform, m.messageId)],
         routerLog := st.routerLog ++ [(m.userId, platform, m.text)],
         sentReplies := st.sentReplies + 1 }, .alreadyProcessed) := by
    unfold webhookHandle
    rw [if_neg hguard, checkDedupe_dup hid hany2]
    rfl
  have hcount : countDedupe
      (st.processedMessages ++ [(platform, m.messageId)]) platform
      m.messageId = 1 := by
    unfold countDedupe
    rw [List.filter_append, List.length_append]
    have h0 : (st.processedMessages.filter
        (fun r => r.1 == platform && r.2 == m.messageId)).length = 0 := hfresh
    rw [h0]
    simp
  rw [h1]
  dsimp only
  rw [h2]
  exact ⟨rfl, rfl, rfl, rfl, hcount⟩

theorem c7_idempotent_delivery_witness :
    (webhookHandle "whatsapp" true ⟨[], [], 0⟩ ⟨"u1", "هلا", "wamid.1"⟩).2 =
        .processed ∧
      (webhookHandle "whatsapp" true
          (webhookHandle "whatsapp" true ⟨[], [], 0⟩
            ⟨"u1", "هلا", "wamid.1"⟩).1 ⟨"u1", "هلا", "wamid.1"⟩).2 =
        .alreadyProcessed ∧
      (webhookHandle "whatsapp" true
          (webhookHandle "whatsapp" true ⟨[], [], 0⟩
            ⟨"u1", "هلا", "wamid.1"⟩).1 ⟨"u1", "هلا", "wamid.1"⟩).1.routerLog =
        ([] : List (String × String × String)) ++ [("u1", "whatsapp", "هلا")] ∧
      (webhookHandle "whatsapp" true
          (webhookHandle "whatsapp" true ⟨[], [], 0⟩
            ⟨"u1", "هلا", "wamid.1"⟩).1
          ⟨"u1", "هلا", "wamid.1"⟩).1.sentReplies = 0 + 1 ∧
      countDedupe (webhookHandle "whatsapp" true
            (webhookHandle "whatsapp" true ⟨[], [], 0⟩
              ⟨"u1", "هلا", "wamid.1"⟩).1
            ⟨"u1", "هلا", "wamid.1"⟩).1.processedMessages
          "whatsapp" "wamid.1" = 1 :=
  c7_idempotent_delivery "whatsapp" ⟨[], [], 0⟩ ⟨"u1", "هلا", "wamid.1"⟩
    (by decide) (by decide) (by decide) (by decide)

/-- C10: an inbound message whose delivery id is the empty string is
reported not-processed without inserting any dedupe record, so such a
message is processed afresh on every delivery and never deduplicated: two
successive deliveries both invoke the router and leave the dedupe table
untouched. -/
theorem c10_empty_id_not_deduped :
    (∀ (db : List (String × String)) (platform : String),
        checkMessageDedupe db platform "" = (false, db)) ∧
      (∀ (st : WebhookState) (m : InboundMessage),
          m.userId ≠ "" → m.text ≠ "" → m.messageId = "" →
          (webhookHandle "whatsapp" true st m).2 = .processed ∧
          (webhookHandle "whatsapp" true st m).1.processedMessages =
            st.processedMessages ∧
          (webhookHandle "whatsapp" true
              (webhookHandle "whatsapp" true st m).1 m).2 = .processed ∧
          (webhookHandle "whatsapp" true
              (webhookHandle "whatsapp" true st m).1 m).1.routerLog =
            st.routerLog ++ [(m.userId, "whatsapp", m.text)] ++
              [(m.userId, "whatsapp", m.text)]) := by
  constructor
  · intro db platform
    unfold checkMessageDedupe
    rw [if_pos rfl]
  · intro st m hu ht hid
    have hguard : ¬(m.userId = "" ∨ m.text = "") := fun h => h.elim hu ht
    have h1 : webhookHandle "whatsapp" true st m =
        ({ processedMessages := st.processedMessages,
           routerLog := st.routerLog ++ [(m.userId, "whatsapp", m.text)],
           sentReplies := st.sentReplies + 1 }, .processed) := by
      unfold webhookHandle
      rw [if_neg hguard]
      unfold checkMessageDedupe
      rw [if_pos hid]
      rfl
    have h2 : webhookHandle "whatsapp" true
        ({ processedMessages := st.processedMessages,
           routerLog := st.routerLog ++ [(m.userId, "whatsapp", m.text)],
           sentReplies := st.sentReplies + 1 } : WebhookState) m =
        ({ processedMessages := st.processedMessages,
           routerLog := st.routerLog ++ [(m.userId, "whatsapp", m.text)] ++
             [(m.userId, "whatsapp", m.text)],
           sentReplies := st.sentReplies + 1 + 1 }, .processed) := by
      unfold webhookHandle
      rw [if_neg hguard]
      unfold checkMessageDedupe
      rw [if_pos hid]
      rfl
    refine ⟨by rw [h1], by rw [h1], ?_, ?_⟩
    · rw [h1]
      dsimp only
      rw [h2]
    · rw [h1]
      dsimp only
      rw [h2]

theorem c10_empty_id_witness :
    (webhookHandle "whatsapp" true ⟨[], [], 0⟩ ⟨"u1", "هلا", ""⟩).2 =
        .processed ∧
      (webhookHandle "whatsapp" true ⟨[], [], 0⟩
          ⟨"u1", "هلا", ""⟩).1.processedMessages =
        ([] : List (String × String)) ∧
      (webhookHandle "whatsapp" true
          (webhookHandle "whatsapp" true ⟨[], [], 0⟩ ⟨"u1", "هلا", ""⟩).1
          ⟨"u1", "هلا", ""⟩).2 = .processed ∧
      (webhookHandle "whatsapp" true
          (webhookHandle "whatsapp" true ⟨[], [], 0⟩ ⟨"u1", "هلا", ""⟩).1
          ⟨"u1", "هلا", ""⟩).1.routerLog =
        ([] : List (String × String × String)) ++ [("u1", "whatsapp", "هلا")] ++
          [("u1", "whatsapp", "هلا")] :=
  c10_empty_id_not_deduped.2 ⟨[], [], 0⟩ ⟨"u1", "هلا", ""⟩ (by decide)
    (by decide) rfl
